import Mathlib

/-!
Verification of the icemaker control core against its natural-language
specification.  The definitions below are shallow embeddings of the Python
sources under `src/icemaker/`:

* `core/states.py`    — state alphabet, transition table, `can_transition`;
* `core/fsm.py`       — `FSMContext` and the FSM loop error handling;
* `core/controller.py`— the per-state handlers (`_handle_power_on`,
  `_handle_chill`, `_handle_heat`) and related helpers;
* `hal/mock_gpio.py`, `hal/rpi_gpio.py`, `hal/rpi_sensors.py` — the HAL
  providers;
* `simulator/physics_model.py` — the fixed-tick physics simulator.

Real numbers of the Python code (floats) are modelled as rationals: every
operation involved is field arithmetic and comparison, which is exact over
the rationals.  Python dictionaries are modelled as association lists,
Python exceptions as `Except` results, and dynamically created object
attributes (`obj.attr = v` on a dataclass that does not declare `attr`)
as `Option` fields whose `none` value means the attribute is absent, so
that reading it raises `AttributeError`.
-/

namespace Icemaker

/-- State alphabet of the FSM, from `core/states.py` (`class IcemakerState`).
The Python enum has exactly these nine members; in particular it has no
DIAGNOSTIC member, although `core/controller.py` refers to
`IcemakerState.DIAGNOSTIC`. -/
inductive IcemakerState where
  | OFF
  | STANDBY
  | IDLE
  | POWER_ON
  | CHILL
  | ICE
  | HEAT
  | ERROR
  | SHUTDOWN
deriving DecidableEq, Repr, Fintype

/-- State alphabet as written in the specification (section 3): the ten
tags `OFF, STANDBY, IDLE, POWER_ON, CHILL, ICE, HEAT, ERROR, SHUTDOWN,
DIAGNOSTIC`.  Used only to compare the code against the spec. -/
inductive SpecState where
  | OFF
  | STANDBY
  | IDLE
  | POWER_ON
  | CHILL
  | ICE
  | HEAT
  | ERROR
  | SHUTDOWN
  | DIAGNOSTIC
deriving DecidableEq, Repr, Fintype

/-- Embedding of the code states into the spec alphabet (name for name). -/
def toSpecState : IcemakerState → SpecState
  | .OFF => .OFF
  | .STANDBY => .STANDBY
  | .IDLE => .IDLE
  | .POWER_ON => .POWER_ON
  | .CHILL => .CHILL
  | .ICE => .ICE
  | .HEAT => .HEAT
  | .ERROR => .ERROR
  | .SHUTDOWN => .SHUTDOWN

/-- The `allowed_transitions` component of the `TRANSITIONS` table in
`core/states.py` (lines 65-152), entry by entry. -/
def allowedTransitions : IcemakerState → List IcemakerState
  | .OFF => [.POWER_ON, .STANDBY, .SHUTDOWN]
  | .STANDBY => [.CHILL, .OFF, .SHUTDOWN]
  | .IDLE => [.CHILL, .STANDBY, .OFF, .SHUTDOWN]
  | .POWER_ON => [.STANDBY, .ERROR, .SHUTDOWN]
  | .CHILL => [.ICE, .IDLE, .STANDBY, .OFF, .ERROR, .SHUTDOWN]
  | .ICE => [.HEAT, .IDLE, .STANDBY, .ERROR, .SHUTDOWN]
  | .HEAT => [.CHILL, .IDLE, .STANDBY, .ERROR, .SHUTDOWN]
  | .ERROR => [.OFF, .SHUTDOWN]
  | .SHUTDOWN => [.OFF]

/-- Embedding of `can_transition` from `core/states.py` (lines 155-168):
membership of the target in the `allowed_transitions` set of the source.
Every state is a key of `TRANSITIONS`, so the `config is None` branch of
the Python function is unreachable. -/
def can_transition (fromState toState : IcemakerState) : Bool :=
  (allowedTransitions fromState).contains toState

/-- The transition table exactly as printed in the specification
(section 4.5), over the spec alphabet. -/
def specAllowedTransitions : SpecState → List SpecState
  | .OFF => [.POWER_ON, .STANDBY, .SHUTDOWN, .DIAGNOSTIC]
  | .STANDBY => [.CHILL, .OFF, .SHUTDOWN]
  | .IDLE => [.CHILL, .STANDBY, .OFF, .SHUTDOWN]
  | .POWER_ON => [.STANDBY, .CHILL, .ERROR, .SHUTDOWN]
  | .CHILL => [.ICE, .IDLE, .STANDBY, .OFF, .ERROR, .SHUTDOWN]
  | .ICE => [.HEAT, .IDLE, .STANDBY, .ERROR, .SHUTDOWN]
  | .HEAT => [.CHILL, .IDLE, .STANDBY, .ERROR, .SHUTDOWN]
  | .ERROR => [.OFF, .SHUTDOWN]
  | .SHUTDOWN => [.OFF]
  | .DIAGNOSTIC => [.OFF]

/-- Decidable form of the transition table of the specification. -/
def specCanTransition (fromState toState : SpecState) : Bool :=
  (specAllowedTransitions fromState).contains toState

/-- Relay identifiers from `hal/base.py` (`class RelayName`). -/
inductive RelayN where
  | WATER_VALVE
  | HOT_GAS_SOLENOID
  | RECIRCULATING_PUMP
  | COMPRESSOR_1
  | COMPRESSOR_2
  | CONDENSER_FAN
  | LED
  | ICE_CUTTER
deriving DecidableEq, Repr

/-- Sensor identifiers from `hal/base.py` (`class SensorName`). -/
inductive SensorN where
  | PLATE
  | ICE_BIN
deriving DecidableEq, Repr

/-- State of a `MockGPIO` instance (`hal/mock_gpio.py`): the set of relay
names that were keys of the `relay_configs` map passed to `setup`
(`self._configs`), the in-memory logical states dictionary
(`self._states`, an association list: absent key models absent dict key),
and whether a change callback is registered (`self._on_change`). -/
structure MockGPIOState where
  configs : List RelayN
  states : List (RelayN × Bool)
  callbackSet : Bool
deriving Repr

/-- Result of a `MockGPIO.set_relay` call that did not raise: the updated
provider state and whether the registered change callback was invoked. -/
structure MockSetRelayResult where
  state : MockGPIOState
  callbackInvoked : Bool
deriving Repr

/-- Update of a Python dict entry, modelled on an association list:
`d[k] = v` replaces the binding of `k` if present, else appends it. -/
def dictSet (d : List (RelayN × Bool)) (k : RelayN) (v : Bool) :
    List (RelayN × Bool) :=
  match d with
  | [] => [(k, v)]
  | (k0, v0) :: rest =>
    if k0 = k then (k, v) :: rest else (k0, v0) :: dictSet rest k v

/-- Lookup `d.get(k, False)` on the association list model of a dict. -/
def dictGetD (d : List (RelayN × Bool)) (k : RelayN) : Bool :=
  match d with
  | [] => false
  | (k0, v0) :: rest => if k0 = k then v0 else dictGetD rest k

/-- Embedding of `MockGPIO.setup` (`hal/mock_gpio.py` lines 36-45) applied
to a freshly constructed instance (`__init__` leaves `_states` empty):
stores the configs and initialises the state of every configured relay to
`False`. -/
def mockSetup (relayConfigs : List RelayN) (callbackSet : Bool) :
    MockGPIOState :=
  { configs := relayConfigs
    states := relayConfigs.map (fun r => (r, false))
    callbackSet := callbackSet }

/-- Embedding of `MockGPIO.set_relay` (`hal/mock_gpio.py` lines 47-66).
Raises `ValueError` when the relay is not in `self._configs`; otherwise
reads the old state with `self._states.get(relay, False)`, stores the new
state, and invokes the change callback exactly when one is registered and
`old_state != value` in the source notation. -/
def mockSetRelay (g : MockGPIOState) (relay : RelayN) (value : Bool) :
    Except String MockSetRelayResult :=
  if g.configs.contains relay then
    let oldState := dictGetD g.states relay
    Except.ok
      { state := { g with states := dictSet g.states relay value }
        callbackInvoked := g.callbackSet && oldState != value }
  else
    Except.error "ValueError: Unknown relay"

/-- Embedding of `MockGPIO.get_relay` (`hal/mock_gpio.py` lines 68-77):
`self._states.get(relay, False)`, total, never raises. -/
def mockGetRelay (g : MockGPIOState) (relay : RelayN) : Bool :=
  dictGetD g.states relay

/-- State of a `RaspberryPiGPIO` instance (`hal/rpi_gpio.py`): the
configured relay names and the `_states` dictionary.  The physical pin
writes are not modelled; only the logical bookkeeping is. -/
structure RpiGPIOState where
  configs : List RelayN
  states : List (RelayN × Bool)
deriving Repr

/-- Embedding of `RaspberryPiGPIO.set_relay` (`hal/rpi_gpio.py` lines
59-89): `self._configs.get(relay)` returning `None` raises `ValueError`;
otherwise the pin is written and `self._states[relay] = on`. -/
def rpiSetRelay (g : RpiGPIOState) (relay : RelayN) (value : Bool) :
    Except String RpiGPIOState :=
  if g.configs.contains relay then
    Except.ok { g with states := dictSet g.states relay value }
  else
    Except.error "ValueError: Unknown relay"

/-- Embedding of `RaspberryPiGPIO.get_relay` (`hal/rpi_gpio.py` lines
91-100): `self._states.get(relay, False)`, total, never raises. -/
def rpiGetRelay (g : RpiGPIOState) (relay : RelayN) : Bool :=
  dictGetD g.states relay

/-- Domain invariant of the two GPIO providers: every key of the `_states`
dictionary is a configured relay.  `setup` establishes it on a fresh
instance and `set_relay` preserves it, because `set_relay` raises before
writing when the relay is unconfigured. -/
def statesWithinConfigs (configs : List RelayN)
    (states : List (RelayN × Bool)) : Prop :=
  ∀ p ∈ states, p.1 ∈ configs

/-- Model of one `RaspberryPiSensors.read_temperature` call
(`hal/rpi_sensors.py` lines 66-102).  The argument describes the situation
the call finds: `none` when `self._sensors.get(sensor)` is `None` (sensor
never initialised), `some (Except.error e)` when the underlying
`get_temperature` call raises `e` (every exception class is caught), and
`some (Except.ok t)` when the read yields temperature `t`.  The function
is total: it returns a temperature in every case. -/
def read_temperature (sensorRead : Option (Except String ℚ)) : ℚ :=
  match sensorRead with
  | none => 70
  | some (Except.error _) => 70
  | some (Except.ok t) => t

/-- Per-state temperature and timeout settings, from `config.py`
(`class StateConfig`). -/
structure StateCfg where
  target_temp : ℚ
  timeout_seconds : ℚ
deriving DecidableEq, Repr

/-- Priming phase durations, from `config.py` (`class PrimingConfig`). -/
structure PrimingCfg where
  flush_time_seconds : ℚ
  pump_time_seconds : ℚ
  fill_time_seconds : ℚ
deriving DecidableEq, Repr

/-- Configuration record, the fields of `config.py` (`class IcemakerConfig`)
that the state handlers read.  `harvest_fill_time` is NOT a declared field
of the dataclass: `controller.py` line 827 reads
`self.config.harvest_fill_time`, and the only writes anywhere in the
repository are dynamic assignments in `api/routes/config.py` after a PUT
request.  It is therefore modelled as an `Option`: `none` means the
attribute was never assigned, so reading it raises `AttributeError`. -/
structure IcemakerCfg where
  prechill : StateCfg
  ice_making : StateCfg
  harvest : StateCfg
  rechill : StateCfg
  bin_full_threshold : ℚ
  standby_timeout : ℚ
  priming_enabled : Bool
  priming : PrimingCfg
  harvest_fill_time : Option ℚ
deriving DecidableEq, Repr

/-- The hardcoded defaults of `IcemakerConfig` in `config.py` (lines
68-121).  A freshly constructed config has no `harvest_fill_time`
attribute. -/
def defaultConfig : IcemakerCfg :=
  { prechill := { target_temp := 32, timeout_seconds := 120 }
    ice_making := { target_temp := -2, timeout_seconds := 1500 }
    harvest := { target_temp := 38, timeout_seconds := 240 }
    rechill := { target_temp := 35, timeout_seconds := 300 }
    bin_full_threshold := 35
    standby_timeout := 1200
    priming_enabled := false
    priming := { flush_time_seconds := 60, pump_time_seconds := 15
                 fill_time_seconds := 15 }
    harvest_fill_time := none }

/-- The chill sub-mode strings `"prechill"` and `"rechill"` stored in
`FSMContext.chill_mode` by `controller.py`. -/
inductive ChillModeStr where
  | prechill
  | rechill
deriving DecidableEq, Repr

/-- Runtime context of the FSM, the declared fields of `FSMContext` in
`core/fsm.py` (lines 21-47) that the handlers touch, with their dataclass
defaults.  Times are in seconds of a model clock.

`session_cycle_count` is NOT a declared field of the dataclass — yet
`controller.py` lines 725 and 759 execute
`ctx.session_cycle_count += 1` and `api/routes/state.py` reads it; no code
in the repository ever creates the attribute.  It is modelled as an
`Option` dynamic attribute: `none` means absent, and reading an absent
attribute raises `AttributeError`.  A freshly constructed `FSMContext`
has `session_cycle_count := none`. -/
structure FSMContext where
  plate_temp : ℚ := 70
  bin_temp : ℚ := 70
  target_temp : ℚ := 32
  cycle_count : ℤ := 0
  cycle_start_time : Option ℚ := none
  chill_mode : Option ChillModeStr := none
  session_cycle_count : Option ℤ := none
deriving DecidableEq, Repr

/-- Outcome of a state-handler call that returned normally: the relay
writes issued through `_set_relay` in source order, the mutated context,
the lifetime count written to disk by `_save_cycle_count` (if called), and
the state returned to the FSM loop (`none` = remain). -/
structure HandlerOutcome where
  relayWrites : List (RelayN × Bool)
  ctx : FSMContext
  persistedCycleCount : Option ℤ
  next : Option IcemakerState
deriving DecidableEq, Repr

/-- Result of a state-handler call.  A raised Python exception propagates
to the FSM loop, but side effects performed before the raise remain: the
`raised` case carries the relay writes already issued and the context as
mutated so far. -/
inductive HandlerResult where
  | ok (out : HandlerOutcome)
  | raised (err : String) (relayWrites : List (RelayN × Bool))
      (ctx : FSMContext)
deriving DecidableEq, Repr

/-- Relay writes of `_set_cooling_relays` (`controller.py` lines 516-524),
in source order. -/
def coolingRelayWrites (withRecirculation : Bool) : List (RelayN × Bool) :=
  [(RelayN.COMPRESSOR_1, true), (RelayN.COMPRESSOR_2, true),
   (RelayN.CONDENSER_FAN, true), (RelayN.HOT_GAS_SOLENOID, false),
   (RelayN.WATER_VALVE, false),
   (RelayN.RECIRCULATING_PUMP, withRecirculation),
   (RelayN.ICE_CUTTER, true)]

/-- Completion block of the rechill branch of
`IcemakerController._handle_chill`: the code at `controller.py` lines
722-744 (target reached) and lines 756-772 (timeout) is identical, so it
is embedded once.  It sets `chill_mode = None`, runs
`ctx.cycle_count += 1`, then `ctx.session_cycle_count += 1` — which
raises `AttributeError` when the dynamic attribute is absent, aborting
the handler with the mutations made so far — then persists the lifetime
count and dispatches on the shutdown flag and `_is_bin_full()`
(`ctx.bin_temp < cfg.bin_full_threshold`, `controller.py` lines
560-562). -/
def rechillComplete (cfg : IcemakerCfg) (shutdownRequested : Bool)
    (now : ℚ) (writes : List (RelayN × Bool)) (ctx : FSMContext) :
    HandlerResult :=
  let ctx := { ctx with chill_mode := none
                        cycle_count := ctx.cycle_count + 1 }
  match ctx.session_cycle_count with
  | none => HandlerResult.raised "AttributeError: session_cycle_count"
      writes ctx
  | some s =>
    let ctx := { ctx with session_cycle_count := some (s + 1) }
    if shutdownRequested then
      HandlerResult.ok
        { relayWrites := writes, ctx := ctx
          persistedCycleCount := some ctx.cycle_count
          next := some IcemakerState.STANDBY }
    else if ctx.bin_temp < cfg.bin_full_threshold then
      HandlerResult.ok
        { relayWrites := writes, ctx := ctx
          persistedCycleCount := some ctx.cycle_count
          next := some IcemakerState.IDLE }
    else
      HandlerResult.ok
        { relayWrites := writes
          ctx := { ctx with chill_mode := some ChillModeStr.prechill
                            cycle_start_time := some now }
          persistedCycleCount := some ctx.cycle_count
          next := some IcemakerState.ICE }

/-- Embedding of `IcemakerController._handle_chill` (`controller.py` lines
688-774).  `shutdownRequested` is `self._shutdown_requested`, `now` is the
value `datetime.now()` would stamp, `elapsed` is `fsm.time_in_state()`.
The branch on `ctx.chill_mode == "rechill"` picks the rechill settings;
any other value (including `None`) is forced to `"prechill"`.  In both
modes the cooling relay matrix (without recirculation) is written before
the guards; reaching the target and exceeding the timeout run the same
completion block in each mode (for prechill: on target the cycle start is
stamped and the handler returns ICE, on timeout it returns ICE without
stamping). -/
def handleChill (cfg : IcemakerCfg) (shutdownRequested : Bool) (now : ℚ)
    (elapsed : ℚ) (ctx : FSMContext) : HandlerResult :=
  match ctx.chill_mode with
  | some ChillModeStr.rechill =>
    let target := cfg.rechill.target_temp
    let timeout := cfg.rechill.timeout_seconds
    let ctx := { ctx with target_temp := target }
    let writes := coolingRelayWrites false
    if ctx.plate_temp ≤ target then
      rechillComplete cfg shutdownRequested now writes ctx
    else if timeout < elapsed then
      rechillComplete cfg shutdownRequested now writes ctx
    else
      HandlerResult.ok
        { relayWrites := writes, ctx := ctx
          persistedCycleCount := none, next := none }
  | _ =>
    let target := cfg.prechill.target_temp
    let timeout := cfg.prechill.timeout_seconds
    let ctx := { ctx with chill_mode := some ChillModeStr.prechill
                          target_temp := target }
    let writes := coolingRelayWrites false
    if ctx.plate_temp ≤ target then
      HandlerResult.ok
        { relayWrites := writes
          ctx := { ctx with chill_mode := none
                            cycle_start_time := some now }
          persistedCycleCount := none
          next := some IcemakerState.ICE }
    else if timeout < elapsed then
      HandlerResult.ok
        { relayWrites := writes
          ctx := { ctx with chill_mode := none }
          persistedCycleCount := none
          next := some IcemakerState.ICE }
    else
      HandlerResult.ok
        { relayWrites := writes, ctx := ctx
          persistedCycleCount := none, next := none }

/-- Embedding of `IcemakerController._handle_heat` (`controller.py` lines
811-862).  The very first statements read
`self.config.harvest.target_temp`, `timeout_seconds` and — line 827 —
`self.config.harvest_fill_time`, an attribute the `IcemakerConfig`
dataclass does not declare; when absent this raises `AttributeError`
before `ctx.target_temp` is assigned and before any relay is written.
Otherwise the heating relay matrix is written each call, with
`water_valve = (elapsed < fill_time)`, and the guards pick the next
state. -/
def handleHeat (cfg : IcemakerCfg) (elapsed : ℚ) (ctx : FSMContext) :
    HandlerResult :=
  let target := cfg.harvest.target_temp
  let timeout := cfg.harvest.timeout_seconds
  match cfg.harvest_fill_time with
  | none => HandlerResult.raised "AttributeError: harvest_fill_time" [] ctx
  | some fillTime =>
    let ctx := { ctx with target_temp := target }
    let writes : List (RelayN × Bool) :=
      [(RelayN.COMPRESSOR_1, true), (RelayN.COMPRESSOR_2, true),
       (RelayN.CONDENSER_FAN, false), (RelayN.HOT_GAS_SOLENOID, true),
       (RelayN.RECIRCULATING_PUMP, false), (RelayN.ICE_CUTTER, true),
       (RelayN.WATER_VALVE, decide (elapsed < fillTime))]
    if target ≤ ctx.plate_temp then
      HandlerResult.ok
        { relayWrites := writes
          ctx := { ctx with chill_mode := some ChillModeStr.rechill }
          persistedCycleCount := none
          next := some IcemakerState.CHILL }
    else if timeout < elapsed then
      HandlerResult.ok
        { relayWrites := writes
          ctx := { ctx with chill_mode := some ChillModeStr.rechill }
          persistedCycleCount := none
          next := some IcemakerState.CHILL }
    else
      HandlerResult.ok
        { relayWrites := writes, ctx := ctx
          persistedCycleCount := none, next := none }

/-- Embedding of `IcemakerController._handle_power_on` (`controller.py`
lines 647-686).  Three priming phases driven by `elapsed =
fsm.time_in_state()`; after the last phase the water valve is closed and
the handler returns `STANDBY` unconditionally — it never touches
`ctx.chill_mode` and never returns `CHILL`. -/
def handlePowerOn (cfg : IcemakerCfg) (elapsed : ℚ) (ctx : FSMContext) :
    HandlerResult :=
  let phase1End := cfg.priming.flush_time_seconds
  let phase2End := phase1End + cfg.priming.pump_time_seconds
  let phase3End := phase2End + cfg.priming.fill_time_seconds
  if elapsed < phase1End then
    HandlerResult.ok
      { relayWrites := [(RelayN.WATER_VALVE, true),
                        (RelayN.RECIRCULATING_PUMP, false)]
        ctx := ctx, persistedCycleCount := none, next := none }
  else if elapsed < phase2End then
    HandlerResult.ok
      { relayWrites := [(RelayN.WATER_VALVE, false),
                        (RelayN.RECIRCULATING_PUMP, true)]
        ctx := ctx, persistedCycleCount := none, next := none }
  else if elapsed < phase3End then
    HandlerResult.ok
      { relayWrites := [(RelayN.RECIRCULATING_PUMP, false),
                        (RelayN.WATER_VALVE, true)]
        ctx := ctx, persistedCycleCount := none, next := none }
  else
    HandlerResult.ok
      { relayWrites := [(RelayN.WATER_VALVE, false)]
        ctx := ctx, persistedCycleCount := none
        next := some IcemakerState.STANDBY }

/-- Event kinds emitted by the FSM loop paths modelled here, from
`core/events.py` (`class EventType`). -/
inductive EventKind where
  | STATE_ENTER
  | STATE_EXIT
  | ERROR
deriving DecidableEq, Repr

/-- Embedding of `AsyncFSM.transition_to` (`core/fsm.py` lines 162-200):
an invalid transition is logged and ignored (state unchanged, no events);
a valid one emits `STATE_EXIT` then `STATE_ENTER` and mutates the
state. -/
def fsmTransitionTo (s t : IcemakerState) :
    IcemakerState × List EventKind :=
  if can_transition s t then
    (t, [EventKind.STATE_EXIT, EventKind.STATE_ENTER])
  else
    (s, [])

/-- Embedding of the body of the `AsyncFSM.run` loop after the handler
call (`core/fsm.py` lines 277-301), given the handler outcome: on a
normal return the returned state (if different from the current one) is
submitted to `transition_to`; on a raised exception the loop catches it,
emits an `ERROR` event, and calls `transition_to(ERROR)` only when
`can_transition` allows it.  The function is total: a handler exception
never escapes the loop. -/
def fsmProcessHandlerResult (s : IcemakerState)
    (res : Except String (Option IcemakerState)) :
    IcemakerState × List EventKind :=
  match res with
  | Except.ok none => (s, [])
  | Except.ok (some t) =>
    if t ≠ s then fsmTransitionTo s t else (s, [])
  | Except.error _ =>
    if can_transition s IcemakerState.ERROR then
      let r := fsmTransitionTo s IcemakerState.ERROR
      (r.1, EventKind.ERROR :: r.2)
    else
      (s, [EventKind.ERROR])

/-- The parameters of `SimulatorParams` (`simulator/physics_model.py`
lines 38-109) that the hot-gas heating step reads, with their default
values. -/
structure PhysParams where
  hot_gas_temp_f : ℚ := 140
  freezing_point_f : ℚ := 32
  h_hotgas : ℚ := 80
  evaporator_area : ℚ := 2/100
  ice_latent_heat : ℚ := 334000
  plate_water_contact_area : ℚ := 8/100
  plate_mass_kg : ℚ := 1/2
deriving DecidableEq, Repr

/-- Embedding of `PhysicsSimulator._calculate_heat_transfer`
(`physics_model.py` lines 476-503): `Q = h * A * ΔT(K) * dt` with the
Fahrenheit difference converted to Kelvin by `* 5/9`.  The result is an
energy in Joules. -/
def calculate_heat_transfer (h area t1 t2 dt : ℚ) : ℚ :=
  h * area * ((t1 - t2) * 5 / 9) * dt

/-- Specific heat of aluminum, `CoolingPlate.ALUMINUM_SPECIFIC_HEAT`
(`physics_model.py` line 199). -/
def ALUMINUM_SPECIFIC_HEAT : ℚ := 897

/-- Density of ice used in `_update_physics` (`physics_model.py` lines
530, 658). -/
def ICE_DENSITY : ℚ := 917

/-- Embedding of `CoolingPlate.apply_heat_transfer` (`physics_model.py`
lines 211-223): returns the new plate temperature.  `ΔT(K) = Q / (m·c)`
converted back to Fahrenheit by `* 9/5`; a non-positive thermal mass
makes the call a no-op. -/
def plateApplyHeat (massKg temp q : ℚ) : ℚ :=
  if massKg * ALUMINUM_SPECIFIC_HEAT ≤ 0 then temp
  else temp + q / (massKg * ALUMINUM_SPECIFIC_HEAT) * 9 / 5

/-- Result of the hot-gas heating section of one physics tick. -/
structure HotGasResult where
  plate_temp : ℚ
  ice_mass_kg : ℚ
  ice_thickness_m : ℚ
deriving DecidableEq, Repr

/-- Embedding of section 4 (hot-gas heating) of
`PhysicsSimulator._update_physics` (`physics_model.py` lines 644-687).
When compressor and hot gas are both ON, the energy
`q_hotgas = h_hotgas · A_evap · ((T_hotgas − T_plate)·5/9) · dt` (Joules)
is computed.  If ice is on the plate and the plate is at most
`freezing_point + 2` (34°F), the code sets
`energy_for_melting = q_hotgas * dt` (note: `q_hotgas` already contains
the factor `dt`; at the 1-second tick this second factor is the
identity), melts `energy_for_melting / L_fusion` kilograms clamped at
zero, recomputes the thickness, and applies `q_hotgas * 0.3` to the
plate.  With no ice, or with the plate above 34°F, the full `q_hotgas`
is applied to the plate. -/
def hotGasStep (p : PhysParams) (compressorOn hotGasOn : Bool)
    (plateTemp iceMass iceThickness dt : ℚ) : HotGasResult :=
  if compressorOn && hotGasOn then
    let q := calculate_heat_transfer p.h_hotgas p.evaporator_area
      p.hot_gas_temp_f plateTemp dt
    if 0 < iceMass then
      if plateTemp ≤ p.freezing_point_f + 2 then
        let energyForMelting := if 0 < q then q * dt else 0
        let iceMelted := energyForMelting / p.ice_latent_heat
        let iceMass2 := max 0 (iceMass - iceMelted)
        let thickness2 :=
          if 0 < iceMass2 then
            iceMass2 / (ICE_DENSITY * p.plate_water_contact_area)
          else 0
        { plate_temp := plateApplyHeat p.plate_mass_kg plateTemp (q * (3/10))
          ice_mass_kg := iceMass2
          ice_thickness_m := thickness2 }
      else
        { plate_temp := plateApplyHeat p.plate_mass_kg plateTemp q
          ice_mass_kg := iceMass
          ice_thickness_m := iceThickness }
    else
      { plate_temp := plateApplyHeat p.plate_mass_kg plateTemp q
        ice_mass_kg := iceMass
        ice_thickness_m := iceThickness }
  else
    { plate_temp := plateTemp
      ice_mass_kg := iceMass
      ice_thickness_m := iceThickness }

/-- Melted mass as asserted by the specification sentence behind claim
C4, modelled from the words of the spec: 70% of the hot-gas energy goes
to melting, so the melted mass is `(0.7 · q) / L_fusion`. -/
def specClaimMeltedMass (p : PhysParams) (q : ℚ) : ℚ :=
  q * (7/10) / p.ice_latent_heat

/-- Fixed tick size of the simulator, `TICK_SIZE_SECONDS`
(`physics_model.py` line 20). -/
def TICK_SIZE_SECONDS : ℚ := 1

/-- Per-update tick cap, `MAX_TICKS_PER_UPDATE`
(`physics_model.py` line 25). -/
def MAX_TICKS_PER_UPDATE : ℕ := 100

/-- Clock portion of the simulator state: the partial-tick accumulator
`_accumulated_time` and `simulated_time_seconds`
(`physics_model.py` lines 369-370). -/
structure SimClock where
  accumulated_time : ℚ
  simulated_time_seconds : ℚ
deriving DecidableEq, Repr

/-- The `while` loop of `PhysicsSimulator.update` (`physics_model.py`
lines 780-784), with the remaining tick budget as fuel: as long as the
accumulator holds at least one tick size (1 s) and the budget is not
exhausted, a tick runs and one tick size is subtracted.  Returns the
final accumulator and the number of ticks executed.  Each executed tick
advances `simulated_time_seconds` by exactly `TICK_SIZE_SECONDS`
(`tick`, lines 751-758); the physics update inside `tick` does not touch
the clock. -/
def runTicks (accum : ℚ) : ℕ → ℚ × ℕ
  | 0 => (accum, 0)
  | n + 1 =>
    if TICK_SIZE_SECONDS ≤ accum then
      let r := runTicks (accum - TICK_SIZE_SECONDS) n
      (r.1, r.2 + 1)
    else (accum, 0)

/-- Embedding of `PhysicsSimulator.update` (`physics_model.py` lines
760-792), clock part.  The wall-clock step is capped at 0.5 s, scaled by
the speed multiplier, added to the accumulator; whole ticks are processed
up to `MAX_TICKS_PER_UPDATE`; if the cap was reached and more than one
tick of accumulation remains, the accumulator is reduced modulo the tick
size (Python `%` on positive operands is the fractional part here).
Returns the new clock and the number of ticks processed. -/
def simUpdate (speedMultiplier : ℚ) (c : SimClock) (dt : ℚ) :
    SimClock × ℕ :=
  let dtCapped := min dt (1/2)
  let simulatedDt := dtCapped * speedMultiplier
  let accum := c.accumulated_time + simulatedDt
  let r := runTicks accum MAX_TICKS_PER_UPDATE
  let accumAfter := r.1
  let ticks := r.2
  let accumFinal :=
    if MAX_TICKS_PER_UPDATE ≤ ticks ∧ TICK_SIZE_SECONDS < accumAfter then
      Int.fract accumAfter
    else accumAfter
  ({ accumulated_time := accumFinal
     simulated_time_seconds :=
       c.simulated_time_seconds + ticks * TICK_SIZE_SECONDS }, ticks)

/-! Theorems settling the claims. -/

/-- C1 (counterexample): the claim states that `can_transition` agrees
with the transition table of the specification; at the concrete pair
`(POWER_ON, CHILL)` the spec table permits the transition while the code
forbids it. -/
theorem c1_transition_table_counterexample :
    can_transition IcemakerState.POWER_ON IcemakerState.CHILL = false ∧
    specCanTransition (toSpecState IcemakerState.POWER_ON)
      (toSpecState IcemakerState.CHILL) = true := by
  decide

/-- C1 (amended): the code state alphabet has no DIAGNOSTIC member, and
`can_transition` agrees with the transition table of the specification at
every pair of code states except `(POWER_ON, CHILL)`, which the code
forbids. -/
theorem c1_transition_table_amended :
    (∀ s : IcemakerState, toSpecState s ≠ SpecState.DIAGNOSTIC) ∧
    (∀ S T : IcemakerState,
      can_transition S T =
        (specCanTransition (toSpecState S) (toSpecState T) &&
          !(S == IcemakerState.POWER_ON && T == IcemakerState.CHILL))) := by
  constructor
  · decide
  · decide

/-- C3 (code bug evaluation): with the configuration as constructed by
`config.py` — which declares no `harvest_fill_time` attribute — every
call of the HEAT handler raises `AttributeError` at
`fill_time = self.config.harvest_fill_time` before writing any relay, for
every elapsed time and context; so no tick in HEAT ever sets the claimed
relay matrix. -/
theorem c3_heat_handler_attribute_error (elapsed : ℚ) (ctx : FSMContext) :
    handleHeat defaultConfig elapsed ctx =
      HandlerResult.raised "AttributeError: harvest_fill_time" [] ctx := rfl

/-- C8: whenever a state handler raises, the FSM loop catches the
exception (the processing function is total), emits an `ERROR` event, and
moves to the `ERROR` state exactly when the transition table allows that
transition from the current state. -/
theorem c8_handler_exception_contained (s : IcemakerState) (msg : String) :
    (fsmProcessHandlerResult s (Except.error msg)).1 =
      (if can_transition s IcemakerState.ERROR then IcemakerState.ERROR
        else s) ∧
    EventKind.ERROR ∈ (fsmProcessHandlerResult s (Except.error msg)).2 := by
  unfold fsmProcessHandlerResult fsmTransitionTo
  cases hc : can_transition s IcemakerState.ERROR <;> simp [hc]

/-- C9: a temperature read that finds the sensor uninitialised, or whose
underlying hardware read raises, returns the sentinel 70.0°F; the
function is total, so no exception reaches the caller. -/
theorem c9_sensor_failure_returns_sentinel
    (sensorRead : Option (Except String ℚ))
    (h : sensorRead = none ∨ ∃ e, sensorRead = some (Except.error e)) :
    read_temperature sensorRead = 70 := by
  rcases h with h | ⟨e, h⟩ <;> subst h <;> rfl

/-- Witness for C9 at a concrete failed read. -/
theorem c9_sensor_failure_returns_sentinel_witness :
    read_temperature (some (Except.error "SensorNotReadyError")) = 70 :=
  c9_sensor_failure_returns_sentinel _ (Or.inr ⟨"SensorNotReadyError", rfl⟩)

/-- C2 (code bug evaluation): at a concrete rechill completion — mode
`"rechill"`, plate at the rechill target 35°F — the CHILL handler
performs the relay writes and the in-place mutations
`chill_mode = None`, `cycle_count += 1`, and then raises
`AttributeError` at `ctx.session_cycle_count += 1`, because `FSMContext`
declares no such field and nothing ever creates it; the session counter
is not incremented, the lifetime count is not persisted, and no
transition is returned. -/
theorem c2_rechill_session_counter_attribute_error :
    handleChill defaultConfig false 0 0
        { plate_temp := 35, chill_mode := some ChillModeStr.rechill } =
      HandlerResult.raised "AttributeError: session_cycle_count"
        (coolingRelayWrites false)
        { plate_temp := 35, target_temp := 35, cycle_count := 1
          chill_mode := none } := rfl

/-- C6: a `MockGPIO.set_relay` call on a configured relay with a
registered change callback succeeds, and the callback is invoked exactly
when the stored logical state differs from the requested value; setting a
relay to its current value invokes no callback. -/
theorem c6_mock_callback_iff_change (g : MockGPIOState) (r : RelayN)
    (v : Bool) (hr : g.configs.contains r = true)
    (hcb : g.callbackSet = true) :
    ∃ out, mockSetRelay g r v = Except.ok out ∧
      (out.callbackInvoked = true ↔ mockGetRelay g r ≠ v) ∧
      (mockGetRelay g r = v → out.callbackInvoked = false) := by
  have hrm : r ∈ g.configs := by simpa using hr
  refine ⟨{ state := { g with states := dictSet g.states r v }
            callbackInvoked := g.callbackSet && (dictGetD g.states r != v) },
          ?_, ?_, ?_⟩
  · simp [mockSetRelay, hrm]
  · simp [mockGetRelay, hcb]
  · intro hv
    simp [mockGetRelay] at hv
    simp [hv]

/-- Witness for C6: a fresh mock with one configured relay (state OFF):
requesting ON does invoke the callback, and the iff applies. -/
theorem c6_mock_callback_iff_change_witness :
    ∃ out,
      mockSetRelay (mockSetup [RelayN.WATER_VALVE] true)
          RelayN.WATER_VALVE true = Except.ok out ∧
      (out.callbackInvoked = true ↔
        mockGetRelay (mockSetup [RelayN.WATER_VALVE] true)
          RelayN.WATER_VALVE ≠ true) ∧
      (mockGetRelay (mockSetup [RelayN.WATER_VALVE] true)
          RelayN.WATER_VALVE = true →
        out.callbackInvoked = false) :=
  c6_mock_callback_iff_change (mockSetup [RelayN.WATER_VALVE] true)
    RelayN.WATER_VALVE true (by decide) rfl

/-- C7 (counterexample): at the concrete elapsed time 90 s — the end of
the default priming phases (60+15+15) — the POWER_ON handler closes the
water valve and returns STANDBY with the context unchanged: in
particular `chill_mode` is not set to `"prechill"` and the handler does
not transition to CHILL, contrary to the claim. -/
theorem c7_power_on_completion_counterexample :
    handlePowerOn defaultConfig 90 {} =
      HandlerResult.ok
        { relayWrites := [(RelayN.WATER_VALVE, false)]
          ctx := {}
          persistedCycleCount := none
          next := some IcemakerState.STANDBY } ∧
    ({} : FSMContext).chill_mode = none := by
  constructor
  · unfold handlePowerOn defaultConfig
    norm_num
  · rfl

/-- C7 (amended): the three priming phases behave as claimed —
`(water_valve, recirc_pump)` is `(ON, OFF)` before `flush`, `(OFF, ON)`
between `flush` and `flush+pump`, `(ON, OFF)` between `flush+pump` and
`flush+pump+fill` — and once elapsed reaches `flush+pump+fill` the
handler turns the water valve OFF and transitions to STANDBY
unconditionally, leaving `chill_mode` untouched. -/
theorem c7_power_on_phases_amended (cfg : IcemakerCfg) (ctx : FSMContext)
    (e : ℚ) (hpump : 0 ≤ cfg.priming.pump_time_seconds)
    (hfill : 0 ≤ cfg.priming.fill_time_seconds) :
    (e < cfg.priming.flush_time_seconds →
      handlePowerOn cfg e ctx = HandlerResult.ok
        { relayWrites := [(RelayN.WATER_VALVE, true),
                          (RelayN.RECIRCULATING_PUMP, false)]
          ctx := ctx, persistedCycleCount := none, next := none }) ∧
    (cfg.priming.flush_time_seconds ≤ e →
      e < cfg.priming.flush_time_seconds + cfg.priming.pump_time_seconds →
      handlePowerOn cfg e ctx = HandlerResult.ok
        { relayWrites := [(RelayN.WATER_VALVE, false),
                          (RelayN.RECIRCULATING_PUMP, true)]
          ctx := ctx, persistedCycleCount := none, next := none }) ∧
    (cfg.priming.flush_time_seconds + cfg.priming.pump_time_seconds ≤ e →
      e < cfg.priming.flush_time_seconds + cfg.priming.pump_time_seconds
            + cfg.priming.fill_time_seconds →
      handlePowerOn cfg e ctx = HandlerResult.ok
        { relayWrites := [(RelayN.RECIRCULATING_PUMP, false),
                          (RelayN.WATER_VALVE, true)]
          ctx := ctx, persistedCycleCount := none, next := none }) ∧
    (cfg.priming.flush_time_seconds + cfg.priming.pump_time_seconds
        + cfg.priming.fill_time_seconds ≤ e →
      handlePowerOn cfg e ctx = HandlerResult.ok
        { relayWrites := [(RelayN.WATER_VALVE, false)]
          ctx := ctx, persistedCycleCount := none
          next := some IcemakerState.STANDBY }) := by
  refine ⟨?_, ?_, ?_, ?_⟩
  · intro h1
    unfold handlePowerOn
    rw [if_pos h1]
  · intro h1 h2
    unfold handlePowerOn
    rw [if_neg (not_lt.mpr h1), if_pos h2]
  · intro h1 h2
    unfold handlePowerOn
    rw [if_neg (not_lt.mpr (by linarith)), if_neg (not_lt.mpr h1),
      if_pos h2]
  · intro h1
    unfold handlePowerOn
    rw [if_neg (not_lt.mpr (by linarith)),
      if_neg (not_lt.mpr (by linarith)), if_neg (not_lt.mpr h1)]

/-- Witness for C7 (amended) at the default phase durations (60, 15, 15)
and concrete elapsed times 30, 70, 85 and 95 seconds. -/
theorem c7_power_on_phases_amended_witness :
    handlePowerOn defaultConfig 30 {} = HandlerResult.ok
      { relayWrites := [(RelayN.WATER_VALVE, true),
                        (RelayN.RECIRCULATING_PUMP, false)]
        ctx := {}, persistedCycleCount := none, next := none } ∧
    handlePowerOn defaultConfig 70 {} = HandlerResult.ok
      { relayWrites := [(RelayN.WATER_VALVE, false),
                        (RelayN.RECIRCULATING_PUMP, true)]
        ctx := {}, persistedCycleCount := none, next := none } ∧
    handlePowerOn defaultConfig 85 {} = HandlerResult.ok
      { relayWrites := [(RelayN.RECIRCULATING_PUMP, false),
                        (RelayN.WATER_VALVE, true)]
        ctx := {}, persistedCycleCount := none, next := none } ∧
    handlePowerOn defaultConfig 95 {} = HandlerResult.ok
      { relayWrites := [(RelayN.WATER_VALVE, false)]
        ctx := {}, persistedCycleCount := none
        next := some IcemakerState.STANDBY } :=
  ⟨(c7_power_on_phases_amended defaultConfig {} 30
      (by norm_num [defaultConfig]) (by norm_num [defaultConfig])).1
      (by norm_num [defaultConfig]),
    (c7_power_on_phases_amended defaultConfig {} 70
      (by norm_num [defaultConfig]) (by norm_num [defaultConfig])).2.1
      (by norm_num [defaultConfig]) (by norm_num [defaultConfig]),
    (c7_power_on_phases_amended defaultConfig {} 85
      (by norm_num [defaultConfig]) (by norm_num [defaultConfig])).2.2.1
      (by norm_num [defaultConfig]) (by norm_num [defaultConfig]),
    (c7_power_on_phases_amended defaultConfig {} 95
      (by norm_num [defaultConfig]) (by norm_num [defaultConfig])).2.2.2
      (by norm_num [defaultConfig])⟩

/-- Helper: a key that is not configured is absent from any `_states`
dictionary satisfying the domain invariant, so `get(relay, False)`
returns `False`. -/
theorem dictGetD_eq_false_of_within (states : List (RelayN × Bool))
    (configs : List RelayN) (r : RelayN)
    (hinv : statesWithinConfigs configs states) (hr : r ∉ configs) :
    dictGetD states r = false := by
  induction states with
  | nil => rfl
  | cons p rest ih =>
    have hp := hinv p (List.mem_cons_self p rest)
    have hrest : statesWithinConfigs configs rest :=
      fun q hq => hinv q (List.mem_cons_of_mem p hq)
    obtain ⟨k0, v0⟩ := p
    by_cases hk : k0 = r
    · subst hk
      exact absurd hp hr
    · simpa [dictGetD, hk] using ih hrest

/-- Helper: `setup` on a fresh provider establishes the domain
invariant (every `_states` key is configured). -/
theorem mockSetup_states_within (relayConfigs : List RelayN) (cb : Bool) :
    statesWithinConfigs (mockSetup relayConfigs cb).configs
      (mockSetup relayConfigs cb).states := by
  intro p hp
  simp only [mockSetup] at hp ⊢
  rcases List.mem_map.mp hp with ⟨r, hr, rfl⟩
  exact hr

/-- Helper: a dictionary write of a configured key preserves the domain
invariant, so `set_relay` (which raises before writing for an
unconfigured key) preserves it on both providers. -/
theorem dictSet_states_within (configs : List RelayN)
    (states : List (RelayN × Bool)) (r : RelayN) (v : Bool)
    (hinv : statesWithinConfigs configs states) (hr : r ∈ configs) :
    statesWithinConfigs configs (dictSet states r v) := by
  induction states with
  | nil =>
    intro p hp
    simp only [dictSet, List.mem_singleton] at hp
    subst hp
    exact hr
  | cons q rest ih =>
    have hq := hinv q (List.mem_cons_self q rest)
    have hrest : statesWithinConfigs configs rest :=
      fun x hx => hinv x (List.mem_cons_of_mem q hx)
    obtain ⟨k0, v0⟩ := q
    intro p hp
    by_cases hk : k0 = r
    · simp only [dictSet, if_pos hk] at hp
      rcases List.mem_cons.mp hp with rfl | hp2
      · exact hr
      · exact hrest p hp2
    · simp only [dictSet, if_neg hk] at hp
      rcases List.mem_cons.mp hp with rfl | hp2
      · exact hq
      · exact ih hrest p hp2

/-- C10: for a relay name that was not a key of the configuration map
passed to `setup` (the domain invariant hypotheses are established by
`setup` and preserved by `set_relay`, see the helper lemmas above),
`set_relay` raises `ValueError` on both GPIO providers, while
`get_relay` returns `False` without raising on both. -/
theorem c10_unconfigured_relay (mock : MockGPIOState) (rp : RpiGPIOState)
    (r : RelayN) (v : Bool)
    (hmockinv : statesWithinConfigs mock.configs mock.states)
    (hrpinv : statesWithinConfigs rp.configs rp.states)
    (hm : r ∉ mock.configs) (hp : r ∉ rp.configs) :
    mockSetRelay mock r v = Except.error "ValueError: Unknown relay" ∧
    mockGetRelay mock r = false ∧
    rpiSetRelay rp r v = Except.error "ValueError: Unknown relay" ∧
    rpiGetRelay rp r = false := by
  refine ⟨?_, ?_, ?_, ?_⟩
  · simp [mockSetRelay, hm]
  · exact dictGetD_eq_false_of_within _ _ _ hmockinv hm
  · simp [rpiSetRelay, hp]
  · exact dictGetD_eq_false_of_within _ _ _ hrpinv hp

/-- Witness for C10: providers configured with only the water valve;
the LED relay is unconfigured. -/
theorem c10_unconfigured_relay_witness :
    mockSetRelay (mockSetup [RelayN.WATER_VALVE] false) RelayN.LED true
        = Except.error "ValueError: Unknown relay" ∧
    mockGetRelay (mockSetup [RelayN.WATER_VALVE] false) RelayN.LED
        = false ∧
    rpiSetRelay { configs := [RelayN.WATER_VALVE]
                  states := [(RelayN.WATER_VALVE, false)] }
        RelayN.LED true = Except.error "ValueError: Unknown relay" ∧
    rpiGetRelay { configs := [RelayN.WATER_VALVE]
                  states := [(RelayN.WATER_VALVE, false)] }
        RelayN.LED = false :=
  c10_unconfigured_relay (mockSetup [RelayN.WATER_VALVE] false)
    { configs := [RelayN.WATER_VALVE]
      states := [(RelayN.WATER_VALVE, false)] }
    RelayN.LED true (mockSetup_states_within [RelayN.WATER_VALVE] false)
    (by intro p hp; simp only [List.mem_singleton] at hp; subst hp; simp)
    (by simp [mockSetup]) (by simp)

/-- Helper: closed form of the tick loop.  With a nonnegative
accumulator, the loop executes `min ⌊accum⌋₊ fuel` ticks and leaves
`accum - min ⌊accum⌋₊ fuel` in the accumulator. -/
theorem runTicks_eq (n : ℕ) (a : ℚ) (ha : 0 ≤ a) :
    runTicks a n = (a - min ⌊a⌋₊ n, min ⌊a⌋₊ n) := by
  induction n generalizing a with
  | zero => simp [runTicks]
  | succ n ih =>
    simp only [runTicks, TICK_SIZE_SECONDS]
    by_cases h : (1 : ℚ) ≤ a
    · rw [if_pos h]
      have ha1 : (0 : ℚ) ≤ a - 1 := by linarith
      have hfloor : ⌊a - 1⌋₊ = ⌊a⌋₊ - 1 := by
        have h2 := Nat.floor_sub_nat a 1
        exact_mod_cast h2
      have h1le : 1 ≤ ⌊a⌋₊ := Nat.le_floor (by exact_mod_cast h)
      rw [ih (a - 1) ha1, hfloor]
      have hmin : min ⌊a⌋₊ (n + 1) = min (⌊a⌋₊ - 1) n + 1 := by omega
      rw [hmin]
      simp only [Prod.mk.injEq]
      constructor
      · push_cast
        ring
      · trivial
    · rw [if_neg h]
      have hz : ⌊a⌋₊ = 0 := Nat.floor_eq_zero.mpr (lt_of_not_le h)
      simp [hz]

/-- C5: for `update(dt)` with a nonnegative accumulator, nonnegative
wall-clock step and nonnegative speed multiplier, the number of whole
ticks processed is `min ⌊accum + min(dt, 0.5) · speed⌋₊ 100`; each tick
advances simulated time by exactly one tick size; and when the 100-tick
cap is hit with more than one tick of accumulation left, the accumulator
is discarded down to its remainder modulo the tick size. -/
theorem c5_update_tick_schedule (speedMultiplier dt : ℚ) (c : SimClock)
    (hacc : 0 ≤ c.accumulated_time) (hdt : 0 ≤ dt)
    (hspeed : 0 ≤ speedMultiplier) :
    (simUpdate speedMultiplier c dt).2
        = min ⌊c.accumulated_time + min dt (1/2) * speedMultiplier⌋₊ 100 ∧
    (simUpdate speedMultiplier c dt).1.simulated_time_seconds
        = c.simulated_time_seconds
            + ((simUpdate speedMultiplier c dt).2 : ℚ) * TICK_SIZE_SECONDS ∧
    ((simUpdate speedMultiplier c dt).2 = 100 →
      1 < c.accumulated_time + min dt (1/2) * speedMultiplier - 100 →
      (simUpdate speedMultiplier c dt).1.accumulated_time
        = Int.fract (c.accumulated_time + min dt (1/2) * speedMultiplier
            - 100)) := by
  have hmin0 : (0 : ℚ) ≤ min dt (1/2) := le_min hdt (by norm_num)
  have ha : 0 ≤ c.accumulated_time + min dt (1/2) * speedMultiplier :=
    add_nonneg hacc (mul_nonneg hmin0 hspeed)
  have hrt := runTicks_eq 100
    (c.accumulated_time + min dt (1/2) * speedMultiplier) ha
  simp only [simUpdate, MAX_TICKS_PER_UPDATE, TICK_SIZE_SECONDS, hrt]
  refine ⟨trivial, trivial, ?_⟩
  intro h1 h2
  rw [h1]
  rw [if_pos]
  · push_cast
    ring_nf
  · refine ⟨le_refl 100, ?_⟩
    push_cast
    linarith

/-- Witness for C5 at speed 300, accumulator 0.3, wall-clock step 10 s
(capped to 0.5 s): the scheduled accumulation is 150.3, so the cap of
100 ticks applies and the excess is discarded modulo the tick size. -/
theorem c5_update_tick_schedule_witness :
    (simUpdate 300 { accumulated_time := 3/10
                     simulated_time_seconds := 0 } 10).2
        = min ⌊(3/10 : ℚ) + min 10 (1/2) * 300⌋₊ 100 ∧
    (simUpdate 300 { accumulated_time := 3/10
                     simulated_time_seconds := 0 } 10).1.simulated_time_seconds
        = 0 + ((simUpdate 300 { accumulated_time := 3/10
                                simulated_time_seconds := 0 } 10).2 : ℚ)
            * TICK_SIZE_SECONDS ∧
    ((simUpdate 300 { accumulated_time := 3/10
                      simulated_time_seconds := 0 } 10).2 = 100 →
      1 < (3/10 : ℚ) + min 10 (1/2) * 300 - 100 →
      (simUpdate 300 { accumulated_time := 3/10
                       simulated_time_seconds := 0 } 10).1.accumulated_time
        = Int.fract ((3/10 : ℚ) + min 10 (1/2) * 300 - 100)) :=
  c5_update_tick_schedule 300 10
    { accumulated_time := 3/10, simulated_time_seconds := 0 }
    (by norm_num) (by norm_num) (by norm_num)

/-- C4 (counterexample): at the default parameters with the plate at
32°F, 1 kg of ice on the plate, a 1 s tick and compressor and hot gas
ON, the hot-gas energy is q = 80 · 0.02 · ((140 − 32)·5/9) · 1 = 96 J;
the code melts m = q·dt/L = 96/334000 kg, not the 70% share
0.7·q/L = 67.2/334000 kg asserted by the claim, so the remaining ice
mass differs from the value the claim predicts. -/
theorem c4_hot_gas_melt_counterexample :
    (hotGasStep {} true true 32 1 0 1).ice_mass_kg ≠
      1 - specClaimMeltedMass {}
        (calculate_heat_transfer ({} : PhysParams).h_hotgas
          ({} : PhysParams).evaporator_area
          ({} : PhysParams).hot_gas_temp_f 32 1) := by
  norm_num [hotGasStep, calculate_heat_transfer, specClaimMeltedMass,
    plateApplyHeat, ICE_DENSITY, ALUMINUM_SPECIFIC_HEAT]

/-- C4 (amended): with compressor and hot gas ON the hot-gas energy is
`q = h_hotgas · A_evap · ((T_hotgas − T_plate)·5/9) · dt` (the
Fahrenheit difference converted to Kelvin); when ice is present and the
plate is at most 34°F (`freezing_point + 2`) and `q > 0`, the FULL
energy — multiplied by `dt` once more as written in the source, the
identity at the 1-second tick — determines the melted mass
`m = q·dt / L_fusion` (clamped so the ice mass stays nonnegative),
while 30% of `q` additionally raises the plate temperature; once no ice
remains or the plate is above 34°F, all of `q` raises the plate
temperature and the ice mass is unchanged. -/
theorem c4_hot_gas_heating_amended (p : PhysParams)
    (plateTemp iceMass iceThickness dt : ℚ)
    (hm : 0 < p.plate_mass_kg) :
    (0 < iceMass → plateTemp ≤ p.freezing_point_f + 2 →
      0 < p.h_hotgas * p.evaporator_area
            * ((p.hot_gas_temp_f - plateTemp) * 5 / 9) * dt →
      (hotGasStep p true true plateTemp iceMass iceThickness dt).ice_mass_kg
          = max 0 (iceMass -
              p.h_hotgas * p.evaporator_area
                * ((p.hot_gas_temp_f - plateTemp) * 5 / 9) * dt * dt
                / p.ice_latent_heat) ∧
      (hotGasStep p true true plateTemp iceMass iceThickness dt).plate_temp
          = plateTemp + p.h_hotgas * p.evaporator_area
              * ((p.hot_gas_temp_f - plateTemp) * 5 / 9) * dt * (3/10)
              / (p.plate_mass_kg * ALUMINUM_SPECIFIC_HEAT) * 9 / 5) ∧
    ((iceMass ≤ 0 ∨ p.freezing_point_f + 2 < plateTemp) →
      (hotGasStep p true true plateTemp iceMass iceThickness dt).ice_mass_kg
          = iceMass ∧
      (hotGasStep p true true plateTemp iceMass iceThickness dt).plate_temp
          = plateTemp + p.h_hotgas * p.evaporator_area
              * ((p.hot_gas_temp_f - plateTemp) * 5 / 9) * dt
              / (p.plate_mass_kg * ALUMINUM_SPECIFIC_HEAT) * 9 / 5) := by
  have hc : (0 : ℚ) < ALUMINUM_SPECIFIC_HEAT := by
    norm_num [ALUMINUM_SPECIFIC_HEAT]
  have hmass : ¬ (p.plate_mass_kg * ALUMINUM_SPECIFIC_HEAT ≤ 0) :=
    not_le.mpr (mul_pos hm hc)
  constructor
  · intro h1 h2 h3
    simp only [hotGasStep, calculate_heat_transfer, plateApplyHeat,
      Bool.and_self, if_true, if_pos h1, if_pos h2, if_pos h3,
      if_neg hmass]
    exact ⟨trivial, trivial⟩
  · intro h
    rcases h with h | h
    · have h1 : ¬ (0 < iceMass) := not_lt.mpr h
      simp only [hotGasStep, calculate_heat_transfer, plateApplyHeat,
        Bool.and_self, if_true, if_neg h1, if_neg hmass]
      exact ⟨trivial, trivial⟩
    · have h2 : ¬ (plateTemp ≤ p.freezing_point_f + 2) := not_le.mpr h
      by_cases h1 : 0 < iceMass
      · simp only [hotGasStep, calculate_heat_transfer, plateApplyHeat,
          Bool.and_self, if_true, if_pos h1, if_neg h2, if_neg hmass]
        exact ⟨trivial, trivial⟩
      · simp only [hotGasStep, calculate_heat_transfer, plateApplyHeat,
          Bool.and_self, if_true, if_neg h1, if_neg hmass]
        exact ⟨trivial, trivial⟩

/-- Witness for C4 (amended) at the default parameters, plate 32°F,
1 kg of ice, 1 s tick: the melt branch applies. -/
theorem c4_hot_gas_heating_amended_witness :
    (hotGasStep ({} : PhysParams) true true 32 1 0 1).ice_mass_kg
        = max 0 (1 - ({} : PhysParams).h_hotgas
            * ({} : PhysParams).evaporator_area
            * ((({} : PhysParams).hot_gas_temp_f - 32) * 5 / 9) * 1 * 1
            / ({} : PhysParams).ice_latent_heat) ∧
    (hotGasStep ({} : PhysParams) true true 32 1 0 1).plate_temp
        = 32 + ({} : PhysParams).h_hotgas
            * ({} : PhysParams).evaporator_area
            * ((({} : PhysParams).hot_gas_temp_f - 32) * 5 / 9) * 1 * (3/10)
            / (({} : PhysParams).plate_mass_kg * ALUMINUM_SPECIFIC_HEAT)
            * 9 / 5 :=
  (c4_hot_gas_heating_amended {} 32 1 0 1 (by norm_num)).1
    (by norm_num) (by norm_num) (by norm_num)

end Icemaker






